import Mathlib

/-!
Shallow embedding of the timy-rs Telegram work/rest tracker (src/src/main.rs).

Modelling conventions:
* `chrono::Duration` / `TimeDelta` values are modelled as `Int` numbers of
  whole seconds: every duration the program constructs is a whole number of
  seconds (`TimeDelta::hours`), and every observation (`num_seconds`) is in
  whole seconds.  Timestamps (`DateTime<Utc>`) are likewise `Int` seconds;
  `signed_duration_since` is integer subtraction.
* `chrono::TimeDelta` is bounded to ±(i64::MAX milliseconds); `TimeDelta::hours`
  panics (`"TimeDelta::hours out of bounds"`) when `hours * 3600` seconds falls
  outside that range.  `tryHours` models the checked conversion; a panic is
  recorded in the `panicked` field of an `Outcome`.
* The Telegram transport (message delivery, reply keyboards, `@botname`
  command suffixes) is external glue and is not modelled; an inbound event is
  the session state, the optional message text (`msg.text()`), and the wall
  clock reading `now` that the handler takes at its start.
-/

namespace Timy

/-- Largest value of Rust's `i64`. -/
def i64Max : Int := 9223372036854775807

/-- Smallest value of Rust's `i64`. -/
def i64Min : Int := -9223372036854775808

/-- Whole-second bound of `chrono::TimeDelta`: a `TimeDelta` of whole seconds
`s` is representable iff `|s| ≤ i64::MAX / 1000` (the type stores at most
`i64::MAX` milliseconds in either direction). -/
def timeDeltaMaxSecs : Int := 9223372036854775

/-- The dialogue state (`enum State` in main.rs).  `rest` and `work` carry
`target_hours` and `cur_hours` durations in seconds; `work` also carries the
`work_start` timestamp. -/
inductive State where
  | start : State
  | receiveTargetHours : State
  | rest (target_hours : Int) (cur_hours : Int) : State
  | work (target_hours : Int) (cur_hours : Int) (work_start : Int) : State
deriving DecidableEq

/-- The bot commands (`enum Command` in main.rs). -/
inductive Command where
  | help : Command
  | work : Command
  | rest : Command
  | status : Command
  | reset : Command
deriving DecidableEq

/-- Decimal digit value of a character, `none` for non-digits. -/
def digitVal (c : Char) : Option Nat :=
  if '0' ≤ c ∧ c ≤ '9' then some (c.toNat - ('0').toNat) else none

/-- Accumulate decimal digits left to right; fails on a non-digit. -/
def parseDigitsAux : List Char → Nat → Option Nat
  | [], acc => some acc
  | c :: cs, acc =>
    match digitVal c with
    | some d => parseDigitsAux cs (acc * 10 + d)
    | none => none

/-- Parse a non-empty all-digit string as a natural number. -/
def parseDigits : List Char → Option Nat
  | [] => none
  | cs => parseDigitsAux cs 0

/-- Rust's `str::parse::<i64>`: an optional single `+` or `-` sign followed by
one or more ASCII decimal digits, value within the `i64` range; anything else
(empty string, stray characters, whitespace, overflow) fails. -/
def parseI64 (s : String) : Option Int :=
  match s.data with
  | '+' :: cs =>
    (parseDigits cs).bind fun m => if (m : Int) ≤ i64Max then some (m : Int) else none
  | '-' :: cs =>
    (parseDigits cs).bind fun m => if i64Min ≤ -(m : Int) then some (-(m : Int)) else none
  | cs =>
    (parseDigits cs).bind fun m => if (m : Int) ≤ i64Max then some (m : Int) else none

/-- The bot-command parse (teloxide `BotCommands`, `rename_rule = "lowercase"`)
restricted to the bare command strings; the transport-level extras
(`/cmd@botname`, trailing arguments) are glue outside the model. -/
def parseCommand (s : String) : Option Command :=
  if s = "/help" then some Command.help
  else if s = "/work" then some Command.work
  else if s = "/rest" then some Command.rest
  else if s = "/status" then some Command.status
  else if s = "/reset" then some Command.reset
  else none

/-- The message text of a command. -/
def cmdText : Command → String
  | Command.help => "/help"
  | Command.work => "/work"
  | Command.rest => "/rest"
  | Command.status => "/status"
  | Command.reset => "/reset"

/-- Rust's `{:0>2}` format: pad the rendered value on the left with `0` to a
minimum width of two characters. -/
def pad2 (s : String) : String :=
  if s.length < 2 then String.mk (List.replicate (2 - s.length) '0') ++ s else s

/-- One zero-padded field of the status line. -/
def fmtField (n : Int) : String := pad2 (toString n)

/-- The `HH:MM:SS` rendering used by `rest`, `work_status` and `rest_status`:
`seconds = d.num_seconds() % 60`, `minutes = (d.num_seconds() / 60) % 60`,
`hours = (d.num_seconds() / 60) / 60`, each formatted `{:0>2}` and joined with
colons.  Rust `i64` division/remainder truncate toward zero (`Int.tdiv` /
`Int.tmod`). -/
def formatHMS (d : Int) : String :=
  fmtField (Int.tdiv (Int.tdiv d 60) 60) ++ ":" ++
    fmtField (Int.tmod (Int.tdiv d 60) 60) ++ ":" ++
    fmtField (Int.tmod d 60)

/-- `Command::descriptions().to_string()` as derived by teloxide. -/
def helpText : String :=
  "These commands are supported:\n/help — display this text.\n/work — start tracking work.\n/rest — stop tracking work.\n/status — show current status.\n/reset — reset working time."

/-- Result of handling one inbound event: the messages sent (in order), the
session state afterwards, and whether the handler aborted with a panic (in
which case `responses` are the messages already sent before the panic and the
dialogue state is left as it was). -/
structure Outcome where
  responses : List String
  finalState : State
  panicked : Bool
deriving DecidableEq

/-- `TimeDelta::hours` (chrono): `some` of the duration in seconds when
`hours * 3600` is representable, `none` when the conversion panics. -/
def tryHours (h : Int) : Option Int :=
  if -timeDeltaMaxSecs ≤ 3600 * h ∧ 3600 * h ≤ timeDeltaMaxSecs then some (3600 * h)
  else none

/-- Handler `help`: sends the command list and moves to `ReceiveTargetHours`. -/
def help : Outcome :=
  { responses := [helpText], finalState := State.receiveTargetHours, panicked := false }

/-- Handler `work` (wired for `Rest` + `/work`): reads `now`, announces the
start, and moves to `Work` carrying `target_hours`/`cur_hours` with
`work_start = now`.  (The Rust code renders the timestamp via `Display`; the
rendering of the raw clock value is abstracted to `toString`.) -/
def work (target_hours cur_hours now : Int) : Outcome :=
  { responses := ["Started work at " ++ toString now],
    finalState := State.work target_hours cur_hours now,
    panicked := false }

/-- Handler `rest` (wired for `Work` + `/rest`): reads `now` once, commits
`cur_hours + (now - work_start)`, reports it against the target, and moves to
`Rest` (dropping `work_start`, carrying `target_hours`). -/
def rest (target_hours cur_hours work_start now : Int) : Outcome :=
  { responses := ["Work done. Done " ++ formatHMS (cur_hours + (now - work_start)) ++
      " of " ++ formatHMS target_hours],
    finalState := State.rest target_hours (cur_hours + (now - work_start)),
    panicked := false }

/-- Handler `work_status` (wired for `Work` + `/status`): reads `now` once and
reports the projected total `cur_hours + (now - work_start)` against the
target; the dialogue is not updated. -/
def work_status (target_hours cur_hours work_start now : Int) : Outcome :=
  { responses := ["Done " ++ formatHMS (cur_hours + (now - work_start)) ++
      " of " ++ formatHMS target_hours],
    finalState := State.work target_hours cur_hours work_start,
    panicked := false }

/-- Handler `rest_status` (wired for `Rest` + `/status`): reports the stored
`cur_hours` against the target; the dialogue is not updated. -/
def rest_status (target_hours cur_hours : Int) : Outcome :=
  { responses := ["Done " ++ formatHMS cur_hours ++ " of " ++ formatHMS target_hours],
    finalState := State.rest target_hours cur_hours,
    panicked := false }

/-- Handler `invalid_state` (the `dptree::endpoint` fallback): a fixed reply,
no dialogue update. -/
def invalid_state (st : State) : Outcome :=
  { responses := ["Unable to handle the message. Type /help to see the usage."],
    finalState := st, panicked := false }

/-- Handler `receive_target_hours`: on text parsing as an `i64` it sends
"Setup done." and then updates the dialogue to
`Rest { target_hours: TimeDelta::hours(n), cur_hours: TimeDelta::hours(0) }`;
the `TimeDelta::hours(n)` conversion panics when out of bounds, after the
"Setup done." message has already been sent and before the dialogue update, so
the state stays `ReceiveTargetHours`.  Non-parsing text, or a message with no
text, is answered with the reprompt and no state change. -/
def receive_target_hours (text : Option String) : Outcome :=
  match text with
  | some s =>
    match parseI64 s with
    | some n =>
      match tryHours n with
      | some target =>
        { responses := ["Setup done."], finalState := State.rest target 0, panicked := false }
      | none =>
        { responses := ["Setup done."], finalState := State.receiveTargetHours, panicked := true }
    | none =>
      { responses := ["Send correct hours count."], finalState := State.receiveTargetHours,
        panicked := false }
  | none =>
    { responses := ["Send correct hours count."], finalState := State.receiveTargetHours,
      panicked := false }

/-- The dispatch tree of `schema()`: a message whose text parses as a bot
command is tried against the five state-guarded command branches
(`Start`+Help, `Rest`+Work, `Rest`+Status, `Work`+Rest, `Work`+Status); a
message that falls through every command branch (a non-command text, a
non-text message, or a command with no branch for the current state) goes to
`receive_target_hours` when the state is `ReceiveTargetHours` and otherwise to
the `invalid_state` fallback.  `now` is the single wall-clock reading the
chosen handler takes at its start. -/
def handleMessage (st : State) (text : Option String) (now : Int) : Outcome :=
  match text with
  | some s =>
    match parseCommand s with
    | some c =>
      match st, c with
      | State.start, Command.help => help
      | State.rest t cu, Command.work => work t cu now
      | State.rest t cu, Command.status => rest_status t cu
      | State.work t cu ws, Command.rest => rest t cu ws now
      | State.work t cu ws, Command.status => work_status t cu ws now
      | State.receiveTargetHours, _ => receive_target_hours (some s)
      | st, _ => invalid_state st
    | none =>
      match st with
      | State.receiveTargetHours => receive_target_hours (some s)
      | st => invalid_state st
  | none =>
    match st with
    | State.receiveTargetHours => receive_target_hours none
    | st => invalid_state st

/-- The committed work total stored in a state, when the state has one. -/
def accumulatedOf : State → Option Int
  | State.rest _ cu => some cu
  | State.work _ cu _ => some cu
  | _ => none

/-- The five (state shape, command) pairs wired in `schema()`. -/
def wiredPair : State → Command → Bool
  | State.start, Command.help => true
  | State.rest _ _, Command.work => true
  | State.rest _ _, Command.status => true
  | State.work _ _ _, Command.rest => true
  | State.work _ _ _, Command.status => true
  | _, _ => false

/-- The `HH:MM:SS` rendering as the specification words it: `hh = s / 3600`
(integer division), `mm = (s / 60) % 60`, `ss = s % 60`, zero-padded two-digit
fields.  Stated with Euclidean `/` and `%`; used only to compare against
`formatHMS`, which is translated from the code. -/
def formatHMS_spec (s : Int) : String :=
  fmtField (s / 3600) ++ ":" ++ fmtField ((s / 60) % 60) ++ ":" ++ fmtField (s % 60)

end Timy

namespace Timy

/-- Dispatch in `ReceiveTargetHours`: every message falls through the
state-guarded command branches (none is guarded on this state) and reaches
`receive_target_hours` with the original text. -/
theorem handle_receive_eq (text : Option String) (now : Int) :
    handleMessage State.receiveTargetHours text now = receive_target_hours text := by
  cases text with
  | none => rfl
  | some s =>
    rcases hc : parseCommand s with _ | c
    · simp only [handleMessage, hc]
    · cases c <;> simp only [handleMessage, hc]

/-- `TimeDelta::hours` succeeds exactly on the in-range hour counts. -/
theorem tryHours_eq_of_bounds (n : Int) (hlo : -2562047788015 ≤ n)
    (hhi : n ≤ 2562047788015) : tryHours n = some (3600 * n) := by
  unfold tryHours timeDeltaMaxSecs
  split_ifs with h
  · rfl
  · exact absurd (by constructor <;> omega) h

/-- Submitting an in-range integer in `ReceiveTargetHours` completes setup. -/
theorem receive_target_in_bounds (s : String) (n now : Int)
    (hp : parseI64 s = some n) (hlo : -2562047788015 ≤ n)
    (hhi : n ≤ 2562047788015) :
    handleMessage State.receiveTargetHours (some s) now =
      { responses := ["Setup done."], finalState := State.rest (3600 * n) 0,
        panicked := false } := by
  rw [handle_receive_eq]
  simp only [receive_target_hours, hp, tryHours_eq_of_bounds n hlo hhi]

end Timy

namespace Timy

/-- On non-negative totals the code's truncating `hours/minutes/seconds`
arithmetic agrees with the specification's formula. -/
theorem formatHMS_eq_spec_of_nonneg (s : Int) (h : 0 ≤ s) :
    formatHMS s = formatHMS_spec s := by
  obtain ⟨n, rfl⟩ := Int.eq_ofNat_of_zero_le h
  have h1 : Int.tdiv (Int.tdiv (n : Int) 60) 60 = (n : Int) / 3600 := by
    have hcast : Int.tdiv (Int.tdiv (n : Int) 60) 60 = ((n / 60 / 60 : Nat) : Int) := rfl
    rw [hcast, Nat.div_div_eq_div_mul]
    norm_num
  have h2 : Int.tmod (Int.tdiv (n : Int) 60) 60 = (n : Int) / 60 % 60 := rfl
  have h3 : Int.tmod (n : Int) 60 = (n : Int) % 60 := rfl
  unfold formatHMS formatHMS_spec
  rw [h1, h2, h3]

end Timy

namespace Timy

/-- C1: the `Working → Resting` transition triggered by `/rest` sets the new
accumulated duration to the old one plus `now - work_start` (with `now` the
single clock reading of the handler), carries the target unchanged, and drops
`work_start`; and no other handled event changes the accumulated duration of
a state that has one. -/
theorem rest_commits_elapsed :
    (∀ t cu ws now : Int,
        handleMessage (State.work t cu ws) (some "/rest") now =
          { responses := ["Work done. Done " ++ formatHMS (cu + (now - ws)) ++
              " of " ++ formatHMS t],
            finalState := State.rest t (cu + (now - ws)), panicked := false }) ∧
    (∀ (st : State) (text : Option String) (now a : Int),
        accumulatedOf st = some a →
          accumulatedOf (handleMessage st text now).finalState = some a ∨
          ∃ t cu ws s, st = State.work t cu ws ∧ text = some s ∧
            parseCommand s = some Command.rest) := by
  constructor
  · intro t cu ws now
    rfl
  · intro st text now a h
    cases st with
    | start => simp [accumulatedOf] at h
    | receiveTargetHours => simp [accumulatedOf] at h
    | rest t cu =>
      left
      simp only [accumulatedOf, Option.some.injEq] at h
      subst h
      rcases text with _ | s
      · rfl
      · rcases hc : parseCommand s with _ | c
        · simp only [handleMessage, hc, invalid_state, accumulatedOf]
        · cases c <;>
            simp only [handleMessage, hc, invalid_state, work, rest_status, help, accumulatedOf]
    | work t cu ws =>
      simp only [accumulatedOf, Option.some.injEq] at h
      subst h
      rcases text with _ | s
      · left; rfl
      · rcases hc : parseCommand s with _ | c
        · left; simp only [handleMessage, hc, invalid_state, accumulatedOf]
        · cases c with
          | rest => exact Or.inr ⟨t, cu, ws, s, rfl, rfl, hc⟩
          | help => left; simp only [handleMessage, hc, invalid_state, accumulatedOf]
          | work => left; simp only [handleMessage, hc, invalid_state, accumulatedOf]
          | status => left; simp only [handleMessage, hc, work_status, accumulatedOf]
          | reset => left; simp only [handleMessage, hc, invalid_state, accumulatedOf]

/-- Witness for `rest_commits_elapsed` at a concrete non-`/rest` event: a
`/status` while working leaves the committed total untouched. -/
theorem rest_commits_elapsed_witness :
    accumulatedOf (State.work 7200 100 50) = some 100 ∧
    (accumulatedOf (handleMessage (State.work 7200 100 50) (some "/status") 60).finalState =
        some 100 ∨
      ∃ t cu ws s, State.work 7200 100 50 = State.work t cu ws ∧
        (some "/status" : Option String) = some s ∧ parseCommand s = some Command.rest) :=
  ⟨rfl, rest_commits_elapsed.2 (State.work 7200 100 50) (some "/status") 60 100 rfl⟩

/-- C4: the `/reset` command has no wired handler in `schema()`: in every
state it falls through to the fallback (`invalid_state`, or
`receive_target_hours` in `ReceiveTargetHours`, where "/reset" is not an
integer), leaving the state unchanged instead of returning to `Start`. -/
theorem reset_not_wired :
    handleMessage (State.rest 28800 0) (some "/reset") 0 =
      { responses := ["Unable to handle the message. Type /help to see the usage."],
        finalState := State.rest 28800 0, panicked := false } ∧
    handleMessage (State.work 28800 600 50) (some "/reset") 60 =
      { responses := ["Unable to handle the message. Type /help to see the usage."],
        finalState := State.work 28800 600 50, panicked := false } ∧
    handleMessage State.start (some "/reset") 0 =
      { responses := ["Unable to handle the message. Type /help to see the usage."],
        finalState := State.start, panicked := false } ∧
    handleMessage State.receiveTargetHours (some "/reset") 0 =
      { responses := ["Send correct hours count."],
        finalState := State.receiveTargetHours, panicked := false } :=
  ⟨rfl, rfl, rfl, rfl⟩

/-- C9: resting with zero elapsed time, working again, and resting again with
zero elapsed time leaves the accumulated duration and the target exactly as
they were. -/
theorem round_trip_zero_elapsed (t cu ws now2 : Int) :
    (handleMessage
        (handleMessage
            (handleMessage (State.work t cu ws) (some "/rest") ws).finalState
            (some "/work") now2).finalState
        (some "/rest") now2).finalState = State.rest t cu := by
  show State.rest t (cu + (ws - ws) + (now2 - now2)) = State.rest t cu
  norm_num

end Timy

namespace Timy

/-- C2 counterexample: "2562047788016" is an integer ≥ 0, but
`TimeDelta::hours` panics on it (2562047788016 * 3600 seconds exceeds the
`TimeDelta` bound), so the session does not reach `Resting`: the "Setup
done." message is sent and then the handler aborts with the dialogue still
in `ReceiveTargetHours`. -/
theorem setup_overflow_counterexample :
    handleMessage State.receiveTargetHours (some "2562047788016") 0 =
      { responses := ["Setup done."], finalState := State.receiveTargetHours,
        panicked := true } ∧
    (handleMessage State.receiveTargetHours (some "2562047788016") 0).finalState ≠
      State.rest (3600 * 2562047788016) 0 :=
  ⟨rfl, by decide⟩

/-- C2 (amended): for every integer 0 ≤ N ≤ 2562047788015 submitted as text
in `ReceiveTargetHours`, the session moves to `Rest` with target N hours and
accumulated 0, and the reply is "Setup done.". -/
theorem setup_from_nonneg_target (s : String) (n now : Int)
    (hp : parseI64 s = some n) (h0 : 0 ≤ n) (hhi : n ≤ 2562047788015) :
    handleMessage State.receiveTargetHours (some s) now =
      { responses := ["Setup done."], finalState := State.rest (3600 * n) 0,
        panicked := false } :=
  receive_target_in_bounds s n now hp (by omega) hhi

/-- Witness for `setup_from_nonneg_target` at the concrete text "8". -/
theorem setup_from_nonneg_target_witness :
    parseI64 "8" = some 8 ∧ (0 : Int) ≤ 8 ∧ (8 : Int) ≤ 2562047788015 ∧
    handleMessage State.receiveTargetHours (some "8") 11 =
      { responses := ["Setup done."], finalState := State.rest (3600 * 8) 0,
        panicked := false } :=
  ⟨rfl, by decide, by decide, setup_from_nonneg_target "8" 8 11 rfl (by decide) (by decide)⟩

/-- C6: text that does not parse as an integer, submitted in
`ReceiveTargetHours`, leaves the state unchanged and is answered with the
reprompt. -/
theorem invalid_target_reprompts (s : String) (now : Int) (hp : parseI64 s = none) :
    handleMessage State.receiveTargetHours (some s) now =
      { responses := ["Send correct hours count."],
        finalState := State.receiveTargetHours, panicked := false } := by
  rw [handle_receive_eq]
  simp only [receive_target_hours, hp]

/-- Witness for `invalid_target_reprompts` at the concrete text "eight". -/
theorem invalid_target_reprompts_witness :
    parseI64 "eight" = none ∧
    handleMessage State.receiveTargetHours (some "eight") 3 =
      { responses := ["Send correct hours count."],
        finalState := State.receiveTargetHours, panicked := false } :=
  ⟨rfl, invalid_target_reprompts "eight" 3 rfl⟩

/-- C10 counterexample: "-9223372036854775808" parses as a signed 64-bit
integer (it is i64::MIN), yet the session does not reach `Resting`:
`TimeDelta::hours` panics, the handler aborts, and the dialogue stays in
`ReceiveTargetHours`. -/
theorem negative_target_min_counterexample :
    handleMessage State.receiveTargetHours (some "-9223372036854775808") 0 =
      { responses := ["Setup done."], finalState := State.receiveTargetHours,
        panicked := true } ∧
    (handleMessage State.receiveTargetHours (some "-9223372036854775808") 0).finalState ≠
      State.rest (3600 * (-9223372036854775808)) 0 :=
  ⟨rfl, by decide⟩

/-- C10 (amended): negative integer text is not rejected: for every integer
-2562047788015 ≤ N < 0 submitted in `ReceiveTargetHours`, the session moves
to `Rest` with the negative target of N hours and accumulated 0, replying
"Setup done."; i64 texts of larger magnitude also parse but the
`TimeDelta::hours` conversion panics instead of completing the transition. -/
theorem setup_from_negative_target (s : String) (n now : Int)
    (hp : parseI64 s = some n) (hneg : n < 0) (hlo : -2562047788015 ≤ n) :
    handleMessage State.receiveTargetHours (some s) now =
      { responses := ["Setup done."], finalState := State.rest (3600 * n) 0,
        panicked := false } :=
  receive_target_in_bounds s n now hp hlo (by omega)

/-- Witness for `setup_from_negative_target` at the concrete text "-3". -/
theorem setup_from_negative_target_witness :
    parseI64 "-3" = some (-3) ∧ (-3 : Int) < 0 ∧ (-2562047788015 : Int) ≤ -3 ∧
    handleMessage State.receiveTargetHours (some "-3") 7 =
      { responses := ["Setup done."], finalState := State.rest (3600 * (-3)) 0,
        panicked := false } :=
  ⟨rfl, by decide, by decide, setup_from_negative_target "-3" (-3) 7 rfl (by decide) (by decide)⟩

end Timy

namespace Timy

/-- C3: for every non-negative total of `s` seconds the code's rendering
agrees with the spec's `hh = s/3600`, `mm = (s/60) mod 60`, `ss = s mod 60`
zero-padded formula (hours not truncated at 24); 86399 s renders "23:59:59"
and 90000 s renders "25:00:00"; and the status and rest replies apply the
same rendering to the accumulated value and to the target value. -/
theorem formatting_matches_spec :
    (∀ s : Int, 0 ≤ s → formatHMS s = formatHMS_spec s) ∧
    formatHMS 86399 = "23:59:59" ∧
    formatHMS 90000 = "25:00:00" ∧
    (∀ t cu now : Int,
        (handleMessage (State.rest t cu) (some "/status") now).responses =
          ["Done " ++ formatHMS cu ++ " of " ++ formatHMS t]) ∧
    (∀ t cu ws now : Int,
        (handleMessage (State.work t cu ws) (some "/status") now).responses =
          ["Done " ++ formatHMS (cu + (now - ws)) ++ " of " ++ formatHMS t]) ∧
    (∀ t cu ws now : Int,
        (handleMessage (State.work t cu ws) (some "/rest") now).responses =
          ["Work done. Done " ++ formatHMS (cu + (now - ws)) ++ " of " ++ formatHMS t]) :=
  ⟨formatHMS_eq_spec_of_nonneg, rfl, rfl, fun _ _ _ => rfl, fun _ _ _ _ => rfl,
    fun _ _ _ _ => rfl⟩

/-- Witness for `formatting_matches_spec` on the total 3661 seconds. -/
theorem formatting_matches_spec_witness :
    (0 : Int) ≤ 3661 ∧ formatHMS 3661 = formatHMS_spec 3661 :=
  ⟨by decide, formatting_matches_spec.1 3661 (by decide)⟩

/-- C5 (amended): every handled event sends at least one response, and the
only way handling can abort is the `TimeDelta::hours` panic: state
`ReceiveTargetHours` with text parsing as an integer N whose 3600·N seconds
exceed the `TimeDelta` bound (|N| > 2562047788015); all other events
terminate normally. -/
theorem panic_only_on_target_overflow :
    (∀ (st : State) (text : Option String) (now : Int),
        (handleMessage st text now).responses ≠ []) ∧
    (∀ (st : State) (text : Option String) (now : Int),
        (handleMessage st text now).panicked = true →
          st = State.receiveTargetHours ∧
          ∃ s n, text = some s ∧ parseI64 s = some n ∧
            (3600 * n < -timeDeltaMaxSecs ∨ timeDeltaMaxSecs < 3600 * n)) := by
  have hrecv : ∀ (text : Option String),
      (receive_target_hours text).responses ≠ [] ∧
      ((receive_target_hours text).panicked = true →
        ∃ s n, text = some s ∧ parseI64 s = some n ∧
          (3600 * n < -timeDeltaMaxSecs ∨ timeDeltaMaxSecs < 3600 * n)) := by
    intro text
    rcases text with _ | s
    · exact ⟨by simp [receive_target_hours], by simp [receive_target_hours]⟩
    · rcases hp : parseI64 s with _ | n
      · constructor
        · simp [receive_target_hours, hp]
        · simp [receive_target_hours, hp]
      · rcases ht : tryHours n with _ | target
        · refine ⟨by simp [receive_target_hours, hp, ht], fun _ => ⟨s, n, rfl, hp, ?_⟩⟩
          unfold tryHours at ht
          unfold timeDeltaMaxSecs at ht ⊢
          split_ifs at ht with hcond
          omega
        · constructor
          · simp [receive_target_hours, hp, ht]
          · simp [receive_target_hours, hp, ht]
  constructor
  · intro st text now
    cases st with
    | receiveTargetHours => rw [handle_receive_eq]; exact (hrecv text).1
    | start =>
      rcases text with _ | s
      · simp [handleMessage, invalid_state]
      · rcases hc : parseCommand s with _ | c
        · simp [handleMessage, hc, invalid_state]
        · cases c <;> simp [handleMessage, hc, invalid_state, help]
    | rest t cu =>
      rcases text with _ | s
      · simp [handleMessage, invalid_state]
      · rcases hc : parseCommand s with _ | c
        · simp [handleMessage, hc, invalid_state]
        · cases c <;> simp [handleMessage, hc, invalid_state, work, rest_status]
    | work t cu ws =>
      rcases text with _ | s
      · simp [handleMessage, invalid_state]
      · rcases hc : parseCommand s with _ | c
        · simp [handleMessage, hc, invalid_state]
        · cases c <;> simp [handleMessage, hc, invalid_state, rest, work_status]
  · intro st text now hpanic
    cases st with
    | receiveTargetHours =>
      rw [handle_receive_eq] at hpanic
      exact ⟨rfl, (hrecv text).2 hpanic⟩
    | start =>
      exfalso
      rcases text with _ | s
      · simp [handleMessage, invalid_state] at hpanic
      · rcases hc : parseCommand s with _ | c
        · simp [handleMessage, hc, invalid_state] at hpanic
        · cases c <;> simp [handleMessage, hc, invalid_state, help] at hpanic
    | rest t cu =>
      exfalso
      rcases text with _ | s
      · simp [handleMessage, invalid_state] at hpanic
      · rcases hc : parseCommand s with _ | c
        · simp [handleMessage, hc, invalid_state] at hpanic
        · cases c <;> simp [handleMessage, hc, invalid_state, work, rest_status] at hpanic
    | work t cu ws =>
      exfalso
      rcases text with _ | s
      · simp [handleMessage, invalid_state] at hpanic
      · rcases hc : parseCommand s with _ | c
        · simp [handleMessage, hc, invalid_state] at hpanic
        · cases c <;> simp [handleMessage, hc, invalid_state, rest, work_status] at hpanic

/-- Witness for `panic_only_on_target_overflow` at a panicking event. -/
theorem panic_only_on_target_overflow_witness :
    (handleMessage State.receiveTargetHours (some "3000000000000") 0).responses ≠ [] ∧
    (State.receiveTargetHours = State.receiveTargetHours ∧
      ∃ s n, (some "3000000000000" : Option String) = some s ∧ parseI64 s = some n ∧
        (3600 * n < -timeDeltaMaxSecs ∨ timeDeltaMaxSecs < 3600 * n)) :=
  ⟨panic_only_on_target_overflow.1 State.receiveTargetHours (some "3000000000000") 0,
    panic_only_on_target_overflow.2 State.receiveTargetHours (some "3000000000000") 0 rfl⟩

/-- C5 counterexample: the claim that every event terminates normally with a
response fails at the in-`i64` integer text "-2562047788016": the handler
panics in `TimeDelta::hours`. -/
theorem abort_counterexample :
    (handleMessage State.receiveTargetHours (some "-2562047788016") 0).panicked = true :=
  rfl

end Timy

namespace Timy

/-- C7: a `/status` message never changes the session state in any state
(and never panics); while `Working` it reports the projected total
`cur_hours + (now - work_start)` without persisting it, so the projection is
non-decreasing in the clock and a later `/rest` commits exactly the same
interval once: a `/status` after that commit reports the committed total
with no second addition of the interval. -/
theorem status_leaves_state_unchanged :
    (∀ (st : State) (now : Int),
        (handleMessage st (some "/status") now).finalState = st ∧
        (handleMessage st (some "/status") now).panicked = false) ∧
    (∀ t cu ws now : Int,
        (handleMessage (State.work t cu ws) (some "/status") now).responses =
          ["Done " ++ formatHMS (cu + (now - ws)) ++ " of " ++ formatHMS t]) ∧
    (∀ cu ws now1 now2 : Int, now1 ≤ now2 → cu + (now1 - ws) ≤ cu + (now2 - ws)) ∧
    (∀ t cu ws now now2 : Int,
        (handleMessage
            ((handleMessage (State.work t cu ws) (some "/rest") now).finalState)
            (some "/status") now2).responses =
          ["Done " ++ formatHMS (cu + (now - ws)) ++ " of " ++ formatHMS t]) := by
  refine ⟨fun st now => ?_, fun _ _ _ _ => rfl, fun cu ws now1 now2 h => by omega,
    fun _ _ _ _ _ => rfl⟩
  cases st <;> exact ⟨rfl, rfl⟩

/-- Witness for `status_leaves_state_unchanged`: the projection is monotone
between two concrete clock readings. -/
theorem status_leaves_state_unchanged_witness :
    (3 : Int) ≤ 9 ∧ (120 : Int) + (3 - 1) ≤ 120 + (9 - 1) :=
  ⟨by decide, status_leaves_state_unchanged.2.2.1 120 1 3 9 (by decide)⟩

/-- C8: a command with no branch for the current state — outside
`ReceiveTargetHours`, whose transition-table rows match on raw text and
answer every command themselves — leaves the state unchanged and is answered
with the fallback message. -/
theorem unlisted_pair_rejected (st : State) (c : Command) (now : Int)
    (hna : st ≠ State.receiveTargetHours) (hnw : wiredPair st c = false) :
    handleMessage st (some (cmdText c)) now =
      { responses := ["Unable to handle the message. Type /help to see the usage."],
        finalState := st, panicked := false } := by
  cases st with
  | receiveTargetHours => exact absurd rfl hna
  | start =>
    cases c with
    | help => simp [wiredPair] at hnw
    | work => rfl
    | rest => rfl
    | status => rfl
    | reset => rfl
  | rest t cu =>
    cases c with
    | work => simp [wiredPair] at hnw
    | status => simp [wiredPair] at hnw
    | help => rfl
    | rest => rfl
    | reset => rfl
  | work t cu ws =>
    cases c with
    | rest => simp [wiredPair] at hnw
    | status => simp [wiredPair] at hnw
    | help => rfl
    | work => rfl
    | reset => rfl

/-- Witness for `unlisted_pair_rejected`: `/rest` while already `Resting`. -/
theorem unlisted_pair_rejected_witness :
    handleMessage (State.rest 14400 300) (some (cmdText Command.rest)) 5 =
      { responses := ["Unable to handle the message. Type /help to see the usage."],
        finalState := State.rest 14400 300, panicked := false } :=
  unlisted_pair_rejected (State.rest 14400 300) Command.rest 5 (by decide) (by decide)

end Timy
